import Mathlib

/-!
Verification of the real-time connection and notification core of the
`ai-business-assistant` backend (Python/FastAPI).  The Python source under
`backend/` is shallowly embedded: the connection registry
(`websocket_manager.py`) becomes an association list with dict semantics,
the scheduler jobs (`scheduler.py`) and the HTTP/WebSocket handlers
(`main.py`) become pure state-transforming functions, and the external
responder (`ai_service.py` calling OpenAI) is modelled by an explicit
outcome parameter (unavailable / raises / succeeds).  Machine time is
modelled as `Int` seconds (1 hour = 3600, 24 hours = 86400).
-/

set_option linter.unusedVariables false

/-- A live outbound channel handle (a WebSocket in the source).  `ok` records
whether a `send_text` on this channel succeeds or raises. -/
structure Channel where
  ok : Bool
deriving DecidableEq

/-- `ConnectionManager.active_connections : Dict[str, WebSocket]`, embedded as
an association list whose operations mirror Python dict semantics (at most one
entry per key is an invariant proved below, not baked into the type). -/
abbrev Registry := List (String × Channel)

/-- The key set of the registry (`active_connections.keys()`). -/
def regKeys (r : Registry) : List String := r.map Prod.fst

/-- `client_id in active_connections` / `active_connections[client_id]`. -/
def lookupConn : Registry → String → Option Channel
  | [], _ => none
  | (k, v) :: rest, cid => if k = cid then some v else lookupConn rest cid

/-- `ConnectionManager.connect`: `active_connections[client_id] = websocket`.
Python dict assignment replaces the value in place when the key is present and
appends a new entry otherwise. -/
def connect : Registry → String → Channel → Registry
  | [], cid, ch => [(cid, ch)]
  | (k, v) :: rest, cid, ch =>
      if k = cid then (cid, ch) :: rest else (k, v) :: connect rest cid ch

/-- `ConnectionManager.disconnect`: `if client_id in active_connections: del
active_connections[client_id]`.  Removes the first entry with the key; on a
duplicate-free registry this is exactly dict deletion, and it is a no-op for
an unmapped id. -/
def disconnect : Registry → String → Registry
  | [], _ => []
  | (k, v) :: rest, cid => if k = cid then rest else (k, v) :: disconnect rest cid

/-- Result of `ConnectionManager.send_personal_message`: the registry after the
call, whether an actual channel send was attempted (the client was mapped),
and whether the error branch (`logger.error` + `self.disconnect`) ran. -/
structure SendResult where
  registry : Registry
  pushed : Bool
  errorLogged : Bool
deriving DecidableEq

/-- `ConnectionManager.send_personal_message(message, client_id)`: if the
client is mapped, attempt the send; on a channel error log and disconnect the
client; never propagate an exception to the caller (the function is total). -/
def send_personal_message (r : Registry) (message : String) (cid : String) : SendResult :=
  match lookupConn r cid with
  | none => ⟨r, false, false⟩
  | some ch => if ch.ok then ⟨r, true, false⟩ else ⟨disconnect r cid, true, true⟩

theorem regKeys_nil : regKeys [] = [] := rfl

theorem regKeys_cons (k : String) (v : Channel) (rest : Registry) :
    regKeys ((k, v) :: rest) = k :: regKeys rest := rfl

theorem lookupConn_connect (r : Registry) (c cid : String) (ch : Channel) :
    lookupConn (connect r c ch) cid = if c = cid then some ch else lookupConn r cid := by
  induction r with
  | nil =>
      simp [connect, lookupConn]
  | cons p rest ih =>
      obtain ⟨k, v⟩ := p
      by_cases hkc : k = c
      · subst hkc
        by_cases hc : k = cid <;> simp [connect, lookupConn, hc]
      · by_cases hc : k = cid
        · subst hc
          simp [connect, lookupConn, hkc, Ne.symm hkc]
        · simp [connect, lookupConn, hkc, hc, ih]

theorem lookupConn_eq_none_iff (r : Registry) (cid : String) :
    lookupConn r cid = none ↔ cid ∉ regKeys r := by
  induction r with
  | nil => simp [lookupConn, regKeys_nil]
  | cons p rest ih =>
      obtain ⟨k, v⟩ := p
      by_cases hc : k = cid
      · subst hc
        simp [lookupConn, regKeys_cons]
      · simp [lookupConn, hc, regKeys_cons, ih, Ne.symm hc]

theorem lookupConn_some_mem {r : Registry} {cid : String} {ch : Channel}
    (h : lookupConn r cid = some ch) : (cid, ch) ∈ r := by
  induction r with
  | nil => simp [lookupConn] at h
  | cons p rest ih =>
      obtain ⟨k, v⟩ := p
      by_cases hc : k = cid
      · subst hc
        simp [lookupConn] at h
        subst h
        exact List.mem_cons_self _ _
      · simp [lookupConn, hc] at h
        exact List.mem_cons_of_mem _ (ih h)

theorem disconnect_of_not_mem {r : Registry} {cid : String}
    (h : cid ∉ regKeys r) : disconnect r cid = r := by
  induction r with
  | nil => rfl
  | cons p rest ih =>
      obtain ⟨k, v⟩ := p
      simp only [regKeys_cons, List.mem_cons, not_or] at h
      simp [disconnect, Ne.symm h.1, ih h.2]

theorem disconnect_sublist (r : Registry) (cid : String) :
    (disconnect r cid).Sublist r := by
  induction r with
  | nil => simp [disconnect]
  | cons p rest ih =>
      obtain ⟨k, v⟩ := p
      by_cases hc : k = cid
      · simp [disconnect, hc]
      · simpa [disconnect, hc] using ih.cons₂ (k, v)

theorem regKeys_nodup_disconnect {r : Registry} (h : (regKeys r).Nodup) (cid : String) :
    (regKeys (disconnect r cid)).Nodup :=
  ((disconnect_sublist r cid).map Prod.fst).nodup h

theorem mem_regKeys_connect {r : Registry} {x c : String} {ch : Channel}
    (hx : x ∈ regKeys (connect r c ch)) : x = c ∨ x ∈ regKeys r := by
  induction r with
  | nil => simpa [connect, regKeys_cons, regKeys_nil] using hx
  | cons p rest ih =>
      obtain ⟨k, v⟩ := p
      by_cases hkc : k = c
      · subst hkc
        simp [connect, regKeys_cons, List.mem_cons] at hx ⊢
        tauto
      · simp only [connect, if_neg hkc, regKeys_cons, List.mem_cons] at hx ⊢
        rcases hx with hx | hx
        · tauto
        · rcases ih hx with h | h <;> tauto

theorem regKeys_nodup_connect {r : Registry} (h : (regKeys r).Nodup)
    (cid : String) (ch : Channel) : (regKeys (connect r cid ch)).Nodup := by
  induction r with
  | nil => simp [connect, regKeys_cons, regKeys_nil]
  | cons p rest ih =>
      obtain ⟨k, v⟩ := p
      simp only [regKeys_cons, List.nodup_cons] at h
      by_cases hkc : k = cid
      · subst hkc
        simpa [connect, regKeys_cons, List.nodup_cons] using h
      · simp only [connect, if_neg hkc, regKeys_cons, List.nodup_cons]
        refine ⟨fun hmem => ?_, ih h.2⟩
        rcases mem_regKeys_connect hmem with h1 | h1
        · exact hkc h1
        · exact h.1 h1

theorem lookupConn_disconnect {r : Registry} (h : (regKeys r).Nodup) (dcid qcid : String) :
    lookupConn (disconnect r dcid) qcid =
      if dcid = qcid then none else lookupConn r qcid := by
  induction r with
  | nil => simp [disconnect, lookupConn]
  | cons p rest ih =>
      obtain ⟨k, v⟩ := p
      simp only [regKeys_cons, List.nodup_cons] at h
      by_cases hkd : k = dcid
      · subst hkd
        by_cases hq : k = qcid
        · subst hq
          simp [disconnect, lookupConn, (lookupConn_eq_none_iff rest k).2 h.1]
        · simp [disconnect, lookupConn, hq]
      · by_cases hq : k = qcid
        · subst hq
          simp [disconnect, lookupConn, hkd, Ne.symm hkd]
        · simp [disconnect, lookupConn, hkd, hq, ih h.2]

/-- One call against the `ConnectionManager` from any of its concurrent
callers (session loops or scheduler jobs).  The registry is the only shared
structure, and every mutation goes through one of these three entry points. -/
inductive RegOp
  | connect (cid : String) (ch : Channel)
  | disconnect (cid : String)
  | sendTo (message : String) (cid : String)
deriving DecidableEq

/-- Effect of one `ConnectionManager` call on the registry. -/
def applyOp (r : Registry) : RegOp → Registry
  | .connect cid ch => connect r cid ch
  | .disconnect cid => disconnect r cid
  | .sendTo message cid => (send_personal_message r message cid).registry

/-- The registry produced by a sequence of calls starting from the empty
manager (`ConnectionManager.__init__`). -/
def runOps (ops : List RegOp) : Registry := ops.foldl applyOp []

/-- Specification-level, per-client view of one call: what a single client id
should be mapped to afterwards, stated independently of the map data
structure.  A failed send (channel not `ok`) on the mapped channel acts as a
disconnect, mirroring `send_personal_message`. -/
def specStep (cid : String) (cur : Option Channel) : RegOp → Option Channel
  | .connect c ch => if c = cid then some ch else cur
  | .disconnect c => if c = cid then none else cur
  | .sendTo _ c =>
      if c = cid then
        match cur with
        | none => none
        | some ch => if ch.ok then some ch else none
      else cur

/-- Specification-level net mapping of a client id after a call sequence. -/
def connSpec (ops : List RegOp) (cid : String) : Option Channel :=
  ops.foldl (specStep cid) none

theorem regKeys_nodup_applyOp {r : Registry} (h : (regKeys r).Nodup) (op : RegOp) :
    (regKeys (applyOp r op)).Nodup := by
  cases op with
  | connect cid ch => exact regKeys_nodup_connect h cid ch
  | disconnect cid => exact regKeys_nodup_disconnect h cid
  | sendTo message cid =>
      simp only [applyOp, send_personal_message]
      cases hl : lookupConn r cid with
      | none => exact h
      | some ch =>
          by_cases hok : ch.ok
          · simpa [hok] using h
          · simpa [hok] using regKeys_nodup_disconnect h cid

theorem lookupConn_applyOp {r : Registry} (h : (regKeys r).Nodup) (op : RegOp) (cid : String) :
    lookupConn (applyOp r op) cid = specStep cid (lookupConn r cid) op := by
  cases op with
  | connect c ch =>
      simp [applyOp, specStep, lookupConn_connect]
  | disconnect c =>
      simp [applyOp, specStep, lookupConn_disconnect h]
  | sendTo message c =>
      simp only [applyOp, specStep, send_personal_message]
      by_cases hc : c = cid
      · subst hc
        cases hl : lookupConn r c with
        | none => simp [hl]
        | some ch =>
            by_cases hok : ch.ok
            · simp [hl, hok]
            · simp [hl, hok, lookupConn_disconnect h]
      · cases hl : lookupConn r c with
        | none => simp [hc]
        | some ch =>
            by_cases hok : ch.ok
            · simp [hc, hok]
            · simp [hc, hok, lookupConn_disconnect h]

theorem foldl_applyOp (ops : List RegOp) (r : Registry) (h : (regKeys r).Nodup) (cid : String) :
    (regKeys (ops.foldl applyOp r)).Nodup ∧
      lookupConn (ops.foldl applyOp r) cid = ops.foldl (specStep cid) (lookupConn r cid) := by
  induction ops generalizing r with
  | nil => exact ⟨h, rfl⟩
  | cons op rest ih =>
      simp only [List.foldl_cons]
      have hstep := lookupConn_applyOp h op cid
      have hnd := regKeys_nodup_applyOp h op
      rcases ih (applyOp r op) hnd with ⟨h1, h2⟩
      exact ⟨h1, by rw [h2, hstep]⟩

/-- `models.Appointment` (the columns the core reads or writes; `notes`,
`price` and `created_at` are never touched by the verified paths and are
omitted).  `scheduled_date` and `updated_at` are UTC times in seconds. -/
structure Appointment where
  id : Nat
  client_id : String
  service_type : String
  scheduled_date : Int
  duration_minutes : Nat
  status : String
  reminder_sent : Bool
  updated_at : Int
deriving DecidableEq

/-- The filter of `AppointmentScheduler.send_appointment_reminders`:
`status == "confirmed" and reminder_sent == False and now <= scheduled_date
<= now + 24h`. -/
def reminderEligible (now : Int) (a : Appointment) : Bool :=
  decide (a.status = "confirmed") && decide (a.reminder_sent = false) &&
    decide (now ≤ a.scheduled_date) && decide (a.scheduled_date ≤ now + 86400)

/-- The reminder text composed by the sweep (service, date, time, duration,
hours-until).  `strftime` date rendering is abstracted to the raw timestamp;
`hours_until = int(time_until.total_seconds() / 3600)` truncates toward
zero. -/
def reminderMessage (now : Int) (a : Appointment) : String :=
  "Appointment Reminder: " ++ a.service_type ++ " at " ++ toString a.scheduled_date ++
    " for " ++ toString a.duration_minutes ++ " minutes, in " ++
    toString (Int.tdiv (a.scheduled_date - now) 3600) ++ " hours"

/-- `AppointmentScheduler.send_appointment_reminders`, one run over the
queried appointment rows: each eligible appointment gets one
`send_personal_message` call and then `reminder_sent = True`; ineligible rows
are untouched.  Returns each row paired with whether a channel push was
attempted for it, plus the registry after the run. -/
def send_appointment_reminders (now : Int) :
    Registry → List Appointment → List (Appointment × Bool) × Registry
  | r, [] => ([], r)
  | r, a :: rest =>
      if reminderEligible now a then
        let res := send_personal_message r (reminderMessage now a) a.client_id
        let tail := send_appointment_reminders now res.registry rest
        (({ a with reminder_sent := true }, res.pushed) :: tail.1, tail.2)
      else
        let tail := send_appointment_reminders now r rest
        ((a, false) :: tail.1, tail.2)

/-- Specification-level description of what one reminder-sweep run does to a
single row, written from the spec sentence ("finds confirmed appointments with
reminder-sent=false scheduled within the next 24h; pushes via the registry;
sets reminder-sent=true"), for comparison with the source embedding. -/
def reminderSweepSpec (now : Int) (r : Registry) (a : Appointment) : Appointment × Bool :=
  if reminderEligible now a then
    ({ a with reminder_sent := true }, (lookupConn r a.client_id).isSome)
  else (a, false)

/-- `AppointmentScheduler.daily_cleanup`, one run: first pass marks confirmed
appointments more than 1 hour past as completed; second pass (run after the
first commit) resets `reminder_sent` to `False` on every row with
`reminder_sent == True` and a future `scheduled_date`, whatever its status. -/
def daily_cleanup (now : Int) (appts : List Appointment) : List Appointment :=
  let phase1 := appts.map fun a =>
    if a.status = "confirmed" ∧ a.scheduled_date < now - 3600 then
      { a with status := "completed" }
    else a
  phase1.map fun a =>
    if a.reminder_sent = true ∧ a.scheduled_date > now then
      { a with reminder_sent := false }
    else a

/-- The action of one `daily_cleanup` run on a single row (the two passes are
row-local, so the run is their composition row by row). -/
def cleanupOne (now : Int) (a : Appointment) : Appointment :=
  let a1 :=
    if a.status = "confirmed" ∧ a.scheduled_date < now - 3600 then
      { a with status := "completed" }
    else a
  if a1.reminder_sent = true ∧ a1.scheduled_date > now then
    { a1 with reminder_sent := false }
  else a1

theorem daily_cleanup_eq_map (now : Int) (appts : List Appointment) :
    daily_cleanup now appts = appts.map (cleanupOne now) := by
  simp [daily_cleanup, cleanupOne, List.map_map, Function.comp]

/-- `PATCH /api/appointments/{id}` (`main.update_appointment`).  `statusParam`
is the optional `status` query value (Python treats the empty string as
absent); `dateParam` is the parsed `scheduled_date` (`None` when absent or
empty; an unparsable string raises before any write and is not modelled).
Providing a date also resets `reminder_sent` to `False`. -/
def update_appointment (statusParam : Option String) (dateParam : Option Int)
    (now : Int) (a : Appointment) : Appointment :=
  let a1 :=
    match statusParam with
    | some s => if s = "" then a else { a with status := s }
    | none => a
  let a2 :=
    match dateParam with
    | some d => { a1 with scheduled_date := d, reminder_sent := false }
    | none => a1
  { a2 with updated_at := now }

/-- `DELETE /api/appointments/{id}` (`main.cancel_appointment`): sets the
status to `cancelled` unconditionally, then notifies the client through the
registry. -/
def cancel_appointment (now : Int) (r : Registry) (a : Appointment) :
    Appointment × SendResult :=
  let a1 := { a with status := "cancelled", updated_at := now }
  (a1, send_personal_message r
    ("Your appointment on " ++ toString a.scheduled_date ++ " has been cancelled.")
    a.client_id)

/-- `models.Conversation`.  `id` is `none` while the ORM object is pending
(before the first flush assigns the primary key). -/
structure Conversation where
  id : Option Nat
  client_id : String
  started_at : Int
  ended_at : Option Int
  status : String
  initiated_by : String
  summary : Option String
deriving DecidableEq

/-- `models.Message` (the `conversation_id` column is nullable). -/
structure Message where
  conversation_id : Option Nat
  content : String
  sender_type : String
  timestamp : Int
deriving DecidableEq

/-- Substring test on character lists, the semantics of Python `needle in
haystack` (an empty needle is contained in everything). -/
def containsSub (needle : List Char) : List Char → Bool
  | [] => needle.isEmpty
  | c :: rest => List.isPrefixOf needle (c :: rest) || containsSub needle rest

/-- Python `needle in haystack` on strings. -/
def strContains (haystack needle : String) : Bool :=
  containsSub needle.data haystack.data

/-- Outcome of one call to the external responder (the OpenAI client in
`ai_service.py`): the client attribute is `None` (no API key), the call
raises, or the call returns a completion text. -/
inductive ResponderOutcome
  | unavailable
  | raises
  | succeeds (text : String)
deriving DecidableEq

/-- A structured intent action returned with a response
(`{"type": ..., "data": {"suggested_times": ...}}`). -/
structure AIAction where
  type : String
  suggested_times : List String
deriving DecidableEq

/-- The `{"response", "intent", "actions"}` dictionary returned by
`AIService.process_message`. -/
structure AIResult where
  response : String
  intent : String
  actions : List AIAction
deriving DecidableEq

/-- ASCII lowercasing of one character (`str.lower()` on the ASCII range;
the keyword matching below only involves ASCII). -/
def asciiLower (c : Char) : Char :=
  if 65 ≤ c.toNat ∧ c.toNat ≤ 90 then Char.ofNat (c.toNat + 32) else c

/-- `message.lower()`. -/
def lowerStr (s : String) : String :=
  ⟨s.data.map asciiLower⟩

/-- `AIService._generate_fallback_response`: deterministic keyword matching on
the lowercased message; every branch carries an empty actions list. -/
def generate_fallback_response (message : String) : AIResult :=
  if strContains (lowerStr message) "schedule" || strContains (lowerStr message) "appointment" then
    { response := "I can help you schedule an appointment. What service are you interested in, and when would you prefer?",
      intent := "scheduling", actions := [] }
  else if strContains (lowerStr message) "cancel" then
    { response := "I can help you cancel your appointment. Could you provide your appointment details?",
      intent := "modification", actions := [] }
  else if strContains (lowerStr message) "hour" || strContains (lowerStr message) "open" then
    { response := "Our business hours are Monday-Friday 9:00 AM - 6:00 PM, and Saturday 10:00 AM - 4:00 PM. We are closed on Sundays.",
      intent := "hours", actions := [] }
  else if strContains (lowerStr message) "price" || strContains (lowerStr message) "cost" then
    { response := "Our pricing varies by service. Could you tell me which service you are interested in?",
      intent := "pricing", actions := [] }
  else
    { response := "I am here to help with scheduling appointments and answering questions about our services. How can I assist you today?",
      intent := "general", actions := [] }

/-- `AIService._analyze_intent`: keyword buckets over the lowercased
message (the AI response argument is ignored by the source). -/
def analyze_intent (message : String) : String :=
  if strContains (lowerStr message) "schedule" || strContains (lowerStr message) "book" ||
      strContains (lowerStr message) "appointment" || strContains (lowerStr message) "available" then
    "scheduling"
  else if strContains (lowerStr message) "cancel" || strContains (lowerStr message) "reschedule" ||
      strContains (lowerStr message) "change" then
    "modification"
  else if strContains (lowerStr message) "confirm" || strContains (lowerStr message) "confirmation" ||
      strContains (lowerStr message) "yes" || strContains (lowerStr message) "agree" then
    "confirmation"
  else if strContains (lowerStr message) "remind" || strContains (lowerStr message) "reminder" ||
      strContains (lowerStr message) "forget" then
    "reminder"
  else if strContains (lowerStr message) "price" || strContains (lowerStr message) "cost" ||
      strContains (lowerStr message) "fee" || strContains (lowerStr message) "charge" then
    "pricing"
  else if strContains (lowerStr message) "hour" || strContains (lowerStr message) "open" ||
      strContains (lowerStr message) "close" || strContains (lowerStr message) "when" then
    "hours"
  else "general"

/-- `AIService._extract_actions`; `slots` stands for the wall-clock dependent
result of `_generate_available_slots()`. -/
def extract_actions (slots : List String) (intent : String) : List AIAction :=
  if intent = "scheduling" then [{ type := "show_availability", suggested_times := slots }]
  else if intent = "confirmation" then [{ type := "confirm_appointment", suggested_times := [] }]
  else if intent = "modification" then [{ type := "modify_appointment", suggested_times := [] }]
  else []

/-- `AIService.process_message`: with no configured client, or when the
completion call raises, return the fallback; otherwise return the completion
text with keyword intent and extracted actions. -/
def process_message (outcome : ResponderOutcome) (slots : List String)
    (message : String) : AIResult :=
  match outcome with
  | .unavailable => generate_fallback_response message
  | .raises => generate_fallback_response message
  | .succeeds text =>
      { response := text, intent := analyze_intent message,
        actions := extract_actions slots (analyze_intent message) }

/-- An outbound wire message pushed to the originating client by the session
pipeline. -/
inductive Payload
  | message (content : String) (intent : String) (actions : List AIAction)
  | available_slots (slots : List String)
deriving DecidableEq

/-- `main.process_action`: `show_availability` pushes an `available_slots`
payload; `confirm_appointment`, `modify_appointment` and unknown types only
log and push nothing. -/
def process_action (a : AIAction) : Option Payload :=
  if a.type = "show_availability" then some (.available_slots a.suggested_times)
  else none

/-- The body of the `websocket_endpoint` receive loop for one inbound message
(the store parts the claims depend on): persist the client message, call the
responder, persist the assistant message, push the response payload, then
dispatch each returned action in order. -/
def pipeline_step (outcome : ResponderOutcome) (slots : List String) (now : Int)
    (convId : Option Nat) (msgs : List Message) (content : String) :
    List Message × List Payload :=
  let userMsg : Message := ⟨convId, content, "client", now⟩
  let msgs1 := msgs ++ [userMsg]
  let ai := process_message outcome slots content
  let aiMsg : Message := ⟨convId, ai.response, "assistant", now⟩
  (msgs1 ++ [aiMsg],
    Payload.message ai.response ai.intent ai.actions :: ai.actions.filterMap process_action)

/-- `AIService.summarize_conversation`: the responder outcome is `some text`
for a successful completion, `none` when the client is missing or the call
raises (both of those branches return the canned fallback text). -/
def summarize_conversation (outcome : Option String) : String :=
  match outcome with
  | none => "Conversation summary not available."
  | some text => text

/-- Which `except` branch of `websocket_endpoint` ended the session:
`clean` is `WebSocketDisconnect`, `errored` is the generic `Exception`
branch. -/
inductive DisconnectKind
  | clean
  | errored
deriving DecidableEq

/-- The disconnect handling of `websocket_endpoint`.  `conv` is the
conversation bound during this session (`none` when no message was ever
received, in which case the local variable was never assigned and the
finalization block does nothing).  The `WebSocketDisconnect` branch removes
the registry mapping and finalizes the conversation (end time, status, and a
summary only when it has at least one message); the generic `Exception`
branch only removes the registry mapping. -/
def handle_disconnect (kind : DisconnectKind) (now : Int) (r : Registry)
    (cid : String) (conv : Option Conversation) (msgs : List Message)
    (summOutcome : Option String) : Registry × Option Conversation :=
  match kind with
  | .errored => (disconnect r cid, conv)
  | .clean =>
      match conv with
      | none => (disconnect r cid, none)
      | some c =>
          let convMsgs := msgs.filter fun m => decide (m.conversation_id = c.id)
          let c1 := { c with ended_at := some now, status := "ended" }
          let c2 :=
            if convMsgs = [] then c1
            else { c1 with summary := some (summarize_conversation summOutcome) }
          (disconnect r cid, some c2)

/-- `AIService.suggest_follow_up`: tiered follow-up text from the days since
the last appointment (`timedelta.days` is floor division by 86400 seconds). -/
def suggest_follow_up (now : Int) (last_appointment_date : Option Int) : Option String :=
  match last_appointment_date with
  | none => some "Would you like to schedule your first appointment with us?"
  | some last =>
      let days_since := Int.fdiv (now - last) 86400
      if days_since > 90 then
        some "It has been a while since your last visit! Would you like to schedule a follow-up appointment?"
      else if days_since > 30 then
        some "Time for your regular check-in? Let me know if you would like to schedule your next appointment."
      else none

/-- Result of `POST /api/outreach/{client_id}`. -/
structure OutreachResult where
  registry : Registry
  pushed : Bool
  conversations : List Conversation
  messages : List Message
  apiMessage : String
deriving DecidableEq

/-- `main.send_outreach`: when `suggest_follow_up` produces a text, push it,
then build the outreach `Conversation` and the `Message`.  The source reads
`conversation.id` for the message's `conversation_id` BEFORE any flush, when
the pending object's primary key is still `None`; the commit then assigns the
key (`nextConvId`) to the conversation row, leaving the message row with a
null `conversation_id`. -/
def send_outreach (now : Int) (nextConvId : Nat) (cid : String) (r : Registry)
    (convs : List Conversation) (msgs : List Message)
    (last_appointment_date : Option Int) : OutreachResult :=
  match suggest_follow_up now last_appointment_date with
  | none => ⟨r, false, convs, msgs, "No outreach needed at this time"⟩
  | some follow_up =>
      let sr := send_personal_message r follow_up cid
      let conversation : Conversation :=
        { id := none, client_id := cid, started_at := now, ended_at := none,
          status := "outreach", initiated_by := "system", summary := none }
      let message : Message :=
        { conversation_id := conversation.id, content := follow_up,
          sender_type := "assistant", timestamp := now }
      let committed : Conversation := { conversation with id := some nextConvId }
      ⟨sr.registry, sr.pushed, convs ++ [committed], msgs ++ [message],
        "Outreach sent successfully"⟩

theorem send_personal_message_of_ok {r : Registry}
    (hok : ∀ p ∈ r, p.2.ok = true) (m cid : String) :
    send_personal_message r m cid = ⟨r, (lookupConn r cid).isSome, false⟩ := by
  cases hl : lookupConn r cid with
  | none => simp [send_personal_message, hl]
  | some ch =>
      have hch : ch.ok = true := hok (cid, ch) (lookupConn_some_mem hl)
      simp [send_personal_message, hl, hch]

theorem send_appointment_reminders_fst (now : Int) (r : Registry)
    (appts : List Appointment) :
    (send_appointment_reminders now r appts).1.map Prod.fst =
      appts.map fun a =>
        if reminderEligible now a then { a with reminder_sent := true } else a := by
  induction appts generalizing r with
  | nil => simp [send_appointment_reminders]
  | cons a rest ih =>
      by_cases he : reminderEligible now a = true
      · simp [send_appointment_reminders, he, ih]
      · simp [send_appointment_reminders, he, ih]

/-- C1: one run of the hourly reminder sweep sets `reminder_sent = true` on
exactly the confirmed, un-flagged appointments scheduled between now and now
plus 24 hours (and touches no other row), and — on healthy channels — attempts
exactly one registry push per such appointment when its client is connected
and zero pushes when it is not, while the flag is set either way. -/
theorem C1_reminder_sweep (now : Int) (r : Registry) (appts : List Appointment) :
    ((send_appointment_reminders now r appts).1.map Prod.fst =
      appts.map fun a =>
        if reminderEligible now a then { a with reminder_sent := true } else a)
    ∧ ((∀ p ∈ r, p.2.ok = true) →
        send_appointment_reminders now r appts =
          (appts.map (reminderSweepSpec now r), r)) := by
  refine ⟨send_appointment_reminders_fst now r appts, fun hok => ?_⟩
  induction appts with
  | nil => simp [send_appointment_reminders]
  | cons a rest ih =>
      by_cases he : reminderEligible now a = true
      · simp [send_appointment_reminders, he, reminderSweepSpec,
          send_personal_message_of_ok hok, ih]
      · simp [send_appointment_reminders, he, reminderSweepSpec, ih]

/-- C1 witness: a confirmed appointment 10 hours out for a connected client is
flagged and pushed once; the same appointment for a disconnected client is
flagged with no push; a cancelled row, an already-flagged row and a row
outside the 24h window are untouched. -/
theorem C1_reminder_sweep_witness :
    send_appointment_reminders 0 [("c1", ⟨true⟩), ("c2", ⟨true⟩)]
        [⟨1, "c1", "consult", 36000, 60, "confirmed", false, 0⟩,
         ⟨2, "c9", "consult", 36000, 60, "confirmed", false, 0⟩,
         ⟨3, "c1", "consult", 36000, 60, "cancelled", false, 0⟩,
         ⟨4, "c1", "consult", 36000, 60, "confirmed", true, 0⟩,
         ⟨5, "c1", "consult", 200000, 60, "confirmed", false, 0⟩] =
      ([(⟨1, "c1", "consult", 36000, 60, "confirmed", true, 0⟩, true),
        (⟨2, "c9", "consult", 36000, 60, "confirmed", true, 0⟩, false),
        (⟨3, "c1", "consult", 36000, 60, "cancelled", false, 0⟩, false),
        (⟨4, "c1", "consult", 36000, 60, "confirmed", true, 0⟩, false),
        (⟨5, "c1", "consult", 200000, 60, "confirmed", false, 0⟩, false)],
       [("c1", ⟨true⟩), ("c2", ⟨true⟩)]) := by
  have h := (C1_reminder_sweep 0 [("c1", ⟨true⟩), ("c2", ⟨true⟩)]
    [⟨1, "c1", "consult", 36000, 60, "confirmed", false, 0⟩,
     ⟨2, "c9", "consult", 36000, 60, "confirmed", false, 0⟩,
     ⟨3, "c1", "consult", 36000, 60, "cancelled", false, 0⟩,
     ⟨4, "c1", "consult", 36000, 60, "confirmed", true, 0⟩,
     ⟨5, "c1", "consult", 200000, 60, "confirmed", false, 0⟩]).2 (by decide)
  rw [h]
  decide

/-- C8: after any sequence of connect/disconnect/send calls starting from the
empty manager, the registry has no duplicate client ids; each id is mapped to
exactly its specification-level net channel (so a reconnect replaces the old
handle and the count matches the net connected ids, one entry per connected
id); connecting the same id twice leaves it mapped once to the second handle;
and disconnecting an unmapped id is a no-op. -/
theorem C8_registry_consistency (ops : List RegOp) (cid : String) (ch1 ch2 : Channel) :
    (regKeys (runOps ops)).Nodup
    ∧ lookupConn (runOps ops) cid = connSpec ops cid
    ∧ (cid ∈ regKeys (runOps ops) ↔ connSpec ops cid ≠ none)
    ∧ (connSpec ops cid ≠ none → (regKeys (runOps ops)).count cid = 1)
    ∧ lookupConn (runOps (ops ++ [RegOp.connect cid ch1, RegOp.connect cid ch2])) cid
        = some ch2
    ∧ (∀ r : Registry, lookupConn r cid = none → disconnect r cid = r) := by
  obtain ⟨hnd0, hlk0⟩ := foldl_applyOp ops [] (by simp [regKeys_nil]) cid
  have hnd : (regKeys (runOps ops)).Nodup := hnd0
  have hlk : lookupConn (runOps ops) cid = connSpec ops cid := hlk0
  have hiff : cid ∈ regKeys (runOps ops) ↔ connSpec ops cid ≠ none := by
    rw [← hlk]
    constructor
    · intro hm hnone
      exact (lookupConn_eq_none_iff _ _).1 hnone hm
    · intro hne
      by_contra hm
      exact hne ((lookupConn_eq_none_iff _ _).2 hm)
  refine ⟨hnd, hlk, hiff, fun hne => ?_, ?_, fun r h => disconnect_of_not_mem
    ((lookupConn_eq_none_iff r cid).1 h)⟩
  · have hmem : cid ∈ regKeys (runOps ops) := hiff.2 hne
    have hle := (List.nodup_iff_count_le_one.1 hnd) cid
    have hpos := List.count_pos_iff.2 hmem
    omega
  · have h2 : lookupConn (runOps (ops ++ [RegOp.connect cid ch1, RegOp.connect cid ch2])) cid
        = connSpec (ops ++ [RegOp.connect cid ch1, RegOp.connect cid ch2]) cid :=
      (foldl_applyOp (ops ++ [RegOp.connect cid ch1, RegOp.connect cid ch2])
        [] (by simp [regKeys_nil]) cid).2
    rw [h2]
    simp [connSpec, List.foldl_append, specStep]

/-- C8 witness: a double connect for one id, a healthy send and a disconnect
of an unknown id leave that id mapped exactly once. -/
theorem C8_registry_consistency_witness :
    (regKeys (runOps [RegOp.connect "a" ⟨true⟩, RegOp.connect "a" ⟨true⟩,
        RegOp.connect "b" ⟨true⟩, RegOp.sendTo "hi" "b",
        RegOp.disconnect "c"])).count "a" = 1 :=
  (C8_registry_consistency [RegOp.connect "a" ⟨true⟩, RegOp.connect "a" ⟨true⟩,
    RegOp.connect "b" ⟨true⟩, RegOp.sendTo "hi" "b", RegOp.disconnect "c"]
    "a" ⟨true⟩ ⟨true⟩).2.2.2.1 (by decide)

/-- C9: `send_personal_message` for an unmapped id does nothing and returns
normally; for a mapped id whose channel send fails it logs the error, removes
the mapping, and still returns normally; a healthy mapped send leaves the
registry unchanged. -/
theorem C9_sendTo_failure (r : Registry) (m cid : String) (ch : Channel) :
    (lookupConn r cid = none → send_personal_message r m cid = ⟨r, false, false⟩)
    ∧ (lookupConn r cid = some ch → ch.ok = false →
        send_personal_message r m cid = ⟨disconnect r cid, true, true⟩)
    ∧ (lookupConn r cid = some ch → ch.ok = true →
        send_personal_message r m cid = ⟨r, true, false⟩) := by
  refine ⟨fun h => by simp [send_personal_message, h],
    fun h hok => by simp [send_personal_message, h, hok],
    fun h hok => by simp [send_personal_message, h, hok]⟩

/-- C9 witness: a failing send to a mapped client removes the mapping, logs,
and returns a normal result. -/
theorem C9_sendTo_failure_witness :
    send_personal_message [("a", ⟨false⟩)] "ping" "a" = ⟨[], true, true⟩ :=
  (C9_sendTo_failure [("a", ⟨false⟩)] "ping" "a" ⟨false⟩).2.1 rfl rfl

/-- C2 counterexample: a disconnect through the generic `Exception` branch of
`websocket_endpoint` (an errored disconnect) leaves the active conversation
with status `active` and no end time — it is not marked ended, contradicting
the claim that every client disconnect finalizes the active conversation. -/
theorem C2_disconnect_counterexample :
    (handle_disconnect .errored 100 [("c1", ⟨true⟩)] "c1"
        (some ⟨some 1, "c1", 0, none, "active", "client", none⟩)
        [⟨some 1, "hello", "client", 5⟩] (some "a summary")).2 =
      some ⟨some 1, "c1", 0, none, "active", "client", none⟩
    ∧ (⟨some 1, "c1", 0, none, "active", "client", none⟩ : Conversation).status
        ≠ "ended" := by
  exact ⟨rfl, by decide⟩

/-- C2 (amended): only a clean disconnect (`WebSocketDisconnect`) finalizes a
conversation bound during the session: it is marked ended with end time now,
and a summary from the responder (the non-empty canned fallback text when the
responder is unavailable or its call raises) is persisted exactly when the
conversation has at least one message; with zero messages `summary` stays
unset.  An errored disconnect performs no finalization.  In both branches the
client's registry mapping is removed. -/
theorem C2_disconnect_amended (now : Int) (r : Registry) (cid : String)
    (conv : Option Conversation) (c : Conversation) (msgs : List Message)
    (so : Option String) :
    handle_disconnect .errored now r cid conv msgs so = (disconnect r cid, conv)
    ∧ (handle_disconnect .clean now r cid (some c) msgs so).1 = disconnect r cid
    ∧ (msgs.filter (fun m => decide (m.conversation_id = c.id)) = [] →
        (handle_disconnect .clean now r cid (some c) msgs so).2 =
          some { c with ended_at := some now, status := "ended" })
    ∧ (msgs.filter (fun m => decide (m.conversation_id = c.id)) ≠ [] →
        (handle_disconnect .clean now r cid (some c) msgs so).2 =
          some { c with ended_at := some now, status := "ended", summary := some (summarize_conversation so) })
    ∧ summarize_conversation none ≠ ""
    ∧ handle_disconnect .clean now r cid none msgs so = (disconnect r cid, none) := by
  refine ⟨rfl, ?_, fun h => ?_, fun h => ?_, by decide, rfl⟩
  · simp [handle_disconnect]
  · simp [handle_disconnect, h]
  · simp [handle_disconnect, h]

/-- C2 witness: a clean disconnect of a conversation with one message, with
the responder unavailable, persists the canned non-empty summary. -/
theorem C2_disconnect_amended_witness :
    (handle_disconnect .clean 100 [("c1", ⟨true⟩)] "c1"
        (some ⟨some 1, "c1", 0, none, "active", "client", none⟩)
        [⟨some 1, "hello", "client", 5⟩] none).2 =
      some ⟨some 1, "c1", 0, some 100, "ended", "client",
        some "Conversation summary not available."⟩ :=
  (C2_disconnect_amended 100 [("c1", ⟨true⟩)] "c1" none
    ⟨some 1, "c1", 0, none, "active", "client", none⟩
    [⟨some 1, "hello", "client", 5⟩] none).2.2.2.1 (by decide)

theorem generate_fallback_response_response_ne (m : String) :
    (generate_fallback_response m).response ≠ "" := by
  unfold generate_fallback_response
  repeat' split
  all_goals decide

theorem generate_fallback_response_actions (m : String) :
    (generate_fallback_response m).actions = [] := by
  unfold generate_fallback_response
  repeat' split
  all_goals rfl

/-- C3: when the responder is not configured or its call raises, message
processing returns exactly the deterministic keyword fallback (a pure
function of the message text alone, so equal messages give equal responses
and intents), the fallback response is non-empty, and the pipeline still
persists the inbound client message (appended before the responder was
consulted) followed by the fallback assistant message. -/
theorem C3_fallback_path (outcome : ResponderOutcome) (slots : List String)
    (now : Int) (convId : Option Nat) (msgs : List Message) (content : String)
    (hfail : outcome = .unavailable ∨ outcome = .raises) :
    process_message outcome slots content = generate_fallback_response content
    ∧ (generate_fallback_response content).response ≠ ""
    ∧ (pipeline_step outcome slots now convId msgs content).1 =
        msgs ++ [⟨convId, content, "client", now⟩,
          ⟨convId, (generate_fallback_response content).response, "assistant", now⟩] := by
  rcases hfail with h | h <;> subst h <;>
    exact ⟨rfl, generate_fallback_response_response_ne content,
      by simp [pipeline_step, process_message]⟩

/-- C3 witness: a raising responder on a concrete message yields the concrete
fallback, and the client message is persisted. -/
theorem C3_fallback_path_witness :
    process_message .raises ["slotA"] "What are your hours?" =
      generate_fallback_response "What are your hours?"
    ∧ (generate_fallback_response "What are your hours?").response ≠ ""
    ∧ (pipeline_step .raises ["slotA"] 7 (some 1) [] "What are your hours?").1 =
        [⟨some 1, "What are your hours?", "client", 7⟩,
         ⟨some 1, (generate_fallback_response "What are your hours?").response,
           "assistant", 7⟩] :=
  C3_fallback_path .raises ["slotA"] 7 (some 1) [] "What are your hours?" (Or.inr rfl)

/-- C10: on the fallback path (responder unavailable or raising) the returned
actions list is empty, so the pipeline dispatches no action payload at all:
the only outbound payload is the fallback message itself, never an
`available_slots` payload — even when the fallback intent is `scheduling`. -/
theorem C10_fallback_no_actions (outcome : ResponderOutcome) (slots : List String)
    (now : Int) (convId : Option Nat) (msgs : List Message) (content : String)
    (hfail : outcome = .unavailable ∨ outcome = .raises) :
    (process_message outcome slots content).actions = []
    ∧ (pipeline_step outcome slots now convId msgs content).2 =
        [Payload.message (generate_fallback_response content).response
          (generate_fallback_response content).intent []] := by
  rcases hfail with h | h <;> subst h <;>
    simp [pipeline_step, process_message, generate_fallback_response_actions]

/-- C10 witness: a scheduling-intent message on the fallback path produces no
`available_slots` payload. -/
theorem C10_fallback_no_actions_witness :
    (generate_fallback_response "Please schedule me").intent = "scheduling"
    ∧ (pipeline_step .raises ["slotA"] 0 (some 1) [] "Please schedule me").2 =
        [Payload.message (generate_fallback_response "Please schedule me").response
          (generate_fallback_response "Please schedule me").intent []] :=
  ⟨by decide,
    (C10_fallback_no_actions .raises ["slotA"] 0 (some 1) [] "Please schedule me"
      (Or.inr rfl)).2⟩

/-- C4 counterexample: one `daily_cleanup` run is not a no-op on every
cancelled appointment — a cancelled row with `reminder_sent = true` and a
future date gets its reminder flag reset by the second pass of the job. -/
theorem C4_cleanup_counterexample :
    daily_cleanup 0 [⟨1, "c1", "consult", 7200, 60, "cancelled", true, 0⟩] =
      [⟨1, "c1", "consult", 7200, 60, "cancelled", false, 0⟩]
    ∧ (⟨1, "c1", "consult", 7200, 60, "cancelled", false, 0⟩ : Appointment) ≠
        ⟨1, "c1", "consult", 7200, 60, "cancelled", true, 0⟩ := by
  exact ⟨by decide, by decide⟩

/-- C4 (amended): one daily-reconciliation run completes every confirmed
appointment more than 1 hour past and never changes a cancelled appointment's
status; a cancelled appointment is entirely unchanged unless it has
`reminder_sent = true` and a future date, in which case the run resets only
that flag. -/
theorem C4_cleanup_amended (now : Int) (appts : List Appointment) (a : Appointment) :
    daily_cleanup now appts = appts.map (cleanupOne now)
    ∧ (a.status = "confirmed" → a.scheduled_date < now - 3600 →
        (cleanupOne now a).status = "completed")
    ∧ (a.status = "cancelled" → (cleanupOne now a).status = "cancelled")
    ∧ (a.status = "cancelled" → a.reminder_sent = true → a.scheduled_date > now →
        cleanupOne now a = { a with reminder_sent := false })
    ∧ (a.status = "cancelled" → ¬(a.reminder_sent = true ∧ a.scheduled_date > now) →
        cleanupOne now a = a) := by
  refine ⟨daily_cleanup_eq_map now appts, ?_, ?_, ?_, ?_⟩
  · intro h1 h2
    have h3 : ¬ a.scheduled_date > now := by omega
    simp [cleanupOne, h1, h2, h3]
  · intro h1
    by_cases h2 : a.reminder_sent = true ∧ a.scheduled_date > now
    · simp [cleanupOne, h1, h2]
    · simp [cleanupOne, h1, h2]
  · intro h1 h2 h3
    simp [cleanupOne, h1, h2, h3]
  · intro h1 h2
    simp [cleanupOne, h1, h2]

/-- C4 witness: a confirmed appointment 2 hours past is completed by the run,
and a cancelled past appointment is untouched. -/
theorem C4_cleanup_amended_witness :
    (cleanupOne 0 ⟨2, "c2", "cut", -7200, 30, "confirmed", false, 0⟩).status
      = "completed" :=
  (C4_cleanup_amended 0 [] ⟨2, "c2", "cut", -7200, 30, "confirmed", false, 0⟩).2.1
    rfl (by decide)

/-- C5: any update through `PATCH /api/appointments/{id}` that carries a new
scheduled date resets `reminder_sent` to `false` in the same update,
whatever else the request changes. -/
theorem C5_reschedule_resets_reminder (statusParam : Option String) (d : Int)
    (now : Int) (a : Appointment) :
    (update_appointment statusParam (some d) now a).reminder_sent = false := by
  cases statusParam with
  | none => rfl
  | some s => by_cases hs : s = "" <;> simp [update_appointment, hs]

/-- C6 counterexample: the mutation paths do not respect the claimed
transition diagram — the update path moves a cancelled appointment back to
`pending`, and the cancel path moves a completed appointment to `cancelled`,
so neither cancelled nor completed is terminal. -/
theorem C6_transitions_counterexample :
    (update_appointment (some "pending") none 50
        ⟨3, "c3", "cut", 7200, 30, "cancelled", true, 0⟩).status = "pending"
    ∧ (cancel_appointment 60 []
        ⟨4, "c4", "cut", 7200, 30, "completed", false, 0⟩).1.status = "cancelled" := by
  exact ⟨rfl, rfl⟩

/-- C6 (amended): only the daily reconciliation job respects the diagram (its
sole status transition is confirmed to completed, and it preserves every
non-confirmed status); the update path writes any supplied non-empty status
with no transition validation, and the cancel path sets `cancelled`
unconditionally — terminality of cancelled and completed is not enforced. -/
theorem C6_transitions_amended (now : Int) (r : Registry) (a : Appointment)
    (s : String) :
    ((cleanupOne now a).status = a.status ∨
      (a.status = "confirmed" ∧ (cleanupOne now a).status = "completed"))
    ∧ (a.status ≠ "confirmed" → (cleanupOne now a).status = a.status)
    ∧ (s ≠ "" → (update_appointment (some s) none now a).status = s)
    ∧ (cancel_appointment now r a).1.status = "cancelled" := by
  refine ⟨?_, ?_, fun hs => by simp [update_appointment, hs], rfl⟩
  · by_cases h : a.status = "confirmed" ∧ a.scheduled_date < now - 3600
    · exact Or.inr ⟨h.1, by simp [cleanupOne, h, apply_ite Appointment.status]⟩
    · exact Or.inl (by simp [cleanupOne, h, apply_ite Appointment.status])
  · intro hne
    have h : ¬(a.status = "confirmed" ∧ a.scheduled_date < now - 3600) :=
      fun hc => hne hc.1
    simp [cleanupOne, h, apply_ite Appointment.status]

/-- C6 witness: the update path moves a pending appointment to `confirmed`
when that status is supplied. -/
theorem C6_transitions_amended_witness :
    (update_appointment (some "confirmed") none 5
        ⟨6, "c6", "cut", 7200, 30, "pending", false, 0⟩).status = "confirmed" :=
  (C6_transitions_amended 5 [] ⟨6, "c6", "cut", 7200, 30, "pending", false, 0⟩
    "confirmed").2.2.1 (by decide)

/-- C7: evaluation of the outreach path at concrete inputs.  The follow-up
tiers behave as specified (no last appointment gives the first-time text,
more than 90 days the reconnect text, 31 to 90 days the check-in text, 30
days or fewer nothing), and the produced message is pushed; but the persisted
outreach `Message` carries `conversation_id = none` while the committed
outreach conversation has id 7 — `conversation.id` is read before the flush
assigns the primary key, so the stored message does not belong to the new
conversation. -/
theorem C7_outreach_orphaned_message :
    suggest_follow_up 0 none =
      some "Would you like to schedule your first appointment with us?"
    ∧ suggest_follow_up 7862400 (some 0) =
        some "It has been a while since your last visit! Would you like to schedule a follow-up appointment?"
    ∧ suggest_follow_up 7776000 (some 0) =
        some "Time for your regular check-in? Let me know if you would like to schedule your next appointment."
    ∧ suggest_follow_up 2678400 (some 0) =
        some "Time for your regular check-in? Let me know if you would like to schedule your next appointment."
    ∧ suggest_follow_up 2592000 (some 0) = none
    ∧ (send_outreach 0 7 "c9" [("c9", ⟨true⟩)] [] [] none).pushed = true
    ∧ (send_outreach 0 7 "c9" [("c9", ⟨true⟩)] [] [] none).conversations =
        [⟨some 7, "c9", 0, none, "outreach", "system", none⟩]
    ∧ (send_outreach 0 7 "c9" [("c9", ⟨true⟩)] [] [] none).messages =
        [⟨none, "Would you like to schedule your first appointment with us?",
          "assistant", 0⟩] := by
  exact ⟨rfl, by decide, by decide, by decide, by decide, by decide, by decide, by decide⟩
